import Mathlib

/-!
Verification of the streaming response decoder and the non-streamed
response handling of the `chatgpt_rs` client library.

The decoder under study is `ChatGPT::process_streaming_response` in
`src/client.rs`: it consumes raw byte fragments of a server-push event
stream, keeps a carry-over buffer of unparsed trailing text across
fragments, and turns complete `data: `-prefixed, blank-line-terminated
events into `ResponseChunk` values.

Text is embedded as `List Char` (the code operates on Rust `str` slices,
which are sequences of Unicode scalar values once UTF-8 decoding has
succeeded).  Byte fragments are embedded as `List Nat` with each element
a byte value.  Rust panics are embedded as the `error` side of an
`Except`: a fragment either processes to a new carry-over buffer plus a
list of emitted chunks, or aborts.
-/

namespace ChatGPTRs

/-- Convert a string literal to the character-list representation used
throughout this development. -/
def toL (s : String) : List Char := s.toList

/-- Embedding of Rust `str::strip_prefix` on character lists: if `pre` is
a prefix of `s`, return the remainder after it, else `none`. -/
def stripPre (pre s : List Char) : Option (List Char) :=
  if pre.isPrefixOf s then some (s.drop pre.length) else none

/-- Embedding of Rust `str::strip_suffix` on character lists: if `suf` is
a suffix of `s`, return the part of `s` before it, else `none`. -/
def stripSuf (suf s : List Char) : Option (List Char) :=
  if suf.isSuffixOf s then some (s.take (s.length - suf.length)) else none

/-- The fixed event line marker `"data: "` of the wire format
(`src/client.rs` line 327). -/
def dataMarker : List Char := toL "data: "

/-- The event terminator `"\n\n"` of the wire format (`src/client.rs`
lines 327 and 331). -/
def eventEnd : List Char := toL "\n\n"

/-- The literal sentinel payload `"[DONE]"` (`src/client.rs` line 332). -/
def doneLit : List Char := toL "[DONE]"

/-- Helper for `splitInclusiveNN`: prepend a character to the first piece
of a piece list (or start a fresh piece when there is none). -/
def consHead (c : Char) : List (List Char) → List (List Char)
  | [] => [[c]]
  | p :: ps => (c :: p) :: ps

/-- Embedding of Rust `str::split_inclusive("\n\n")`: split on the
leftmost, non-overlapping occurrences of the double newline, each piece
keeping its trailing delimiter; a trailing piece without the delimiter is
kept, and the empty text yields no pieces. -/
def splitInclusiveNN : List Char → List (List Char)
  | [] => []
  | [c] => [[c]]
  | c :: c2 :: rest2 =>
    if c = '\n' ∧ c2 = '\n' then ['\n', '\n'] :: splitInclusiveNN rest2
    else consHead c (splitInclusiveNN (c2 :: rest2))

/-- Modelled from the spec: the message role enumeration (spec section 3,
`Message.role`); `types.rs` is not part of the provided sources. -/
inductive Role
  | system
  | user
  | assistant
  | function
deriving DecidableEq, Repr

/-- Modelled from the spec: the `ResponseChunk` tagged variant produced by
the streaming decoder (spec section 3, `ResponseEvent`); `types.rs` is not
part of the provided sources. -/
inductive ResponseChunk
  | beginResponse (role : Role) (responseIndex : Nat)
  | content (delta : List Char) (responseIndex : Nat)
  | closeResponse (responseIndex : Nat)
  | done
deriving DecidableEq, Repr

/-- Modelled from the spec: the `delta` object of one inbound choice,
whose shape (role-only, content-only, or empty) selects the event variant
(spec section 6); `types.rs` is not part of the provided sources. -/
inductive InboundChunkPayload
  | announceRoles (role : Role)
  | streamContent (content : List Char)
  | close
deriving DecidableEq, Repr

/-- Modelled from the spec: one element of the `choices` array of an
inbound streamed payload, carrying an `index` and a `delta` (spec section
6); `types.rs` is not part of the provided sources. -/
structure InboundChunkChoice where
  index : Nat
  delta : InboundChunkPayload
deriving DecidableEq, Repr

/-- Modelled from the spec: the inbound streamed payload, a structured
JSON object with a `choices` array (spec section 6); `types.rs` is not
part of the provided sources. -/
structure InboundResponseChunk where
  choices : List InboundChunkChoice
deriving DecidableEq, Repr

/-- Modelled from the spec: JSON values, standing in for the external
`serde_json` crate used at `src/client.rs` line 335 (the crate is not
part of the provided sources).  Numbers are restricted to integers: the
payloads of the wire format (spec section 6) carry only the integral
`index` field as a number. -/
inductive Json
  | jnull
  | jbool (b : Bool)
  | jnum (n : Int)
  | jstr (s : List Char)
  | jarr (elems : List Json)
  | jobj (fields : List (List Char × Json))

/-- JSON insignificant whitespace characters. -/
def isWsChar (c : Char) : Bool := c = ' ' || c = '\n' || c = '\t' || c = '\r'

/-- Skip leading JSON whitespace. -/
def skipWs : List Char → List Char
  | [] => []
  | c :: cs => if isWsChar c then skipWs cs else c :: cs

/-- Parse the body of a JSON string after the opening quote, returning
the decoded characters and the rest of the input after the closing quote.
The common escapes are supported; `\u` escapes are not (no payload of the
wire format needs them). -/
def parseStringRest : Nat → List Char → Option (List Char × List Char)
  | 0, _ => none
  | _, [] => none
  | fuel + 1, c :: cs =>
    if c = '"' then some ([], cs)
    else if c = '\\' then
      match cs with
      | [] => none
      | e :: cs2 =>
        let cont := fun (ch : Char) =>
          (parseStringRest fuel cs2).map (fun r => (ch :: r.1, r.2))
        if e = '"' then cont '"'
        else if e = '\\' then cont '\\'
        else if e = '/' then cont '/'
        else if e = 'n' then cont '\n'
        else if e = 't' then cont '\t'
        else if e = 'r' then cont '\r'
        else if e = 'b' then cont (Char.ofNat 8)
        else if e = 'f' then cont (Char.ofNat 12)
        else none
    else if c.toNat < 32 then none
    else (parseStringRest fuel cs).map (fun r => (c :: r.1, r.2))

/-- Take the leading run of decimal digits. -/
def takeDigits : List Char → List Char × List Char
  | [] => ([], [])
  | c :: cs =>
    if c.isDigit then
      let r := takeDigits cs
      (c :: r.1, r.2)
    else ([], c :: cs)

/-- Numeric value of a digit run (most significant first). -/
def digitsToNat : List Char → Nat → Nat
  | [], acc => acc
  | c :: cs, acc => digitsToNat cs (acc * 10 + (c.toNat - 48))

/-- Parse a JSON integer (optional minus sign, digit run with no
redundant leading zero). -/
def parseNum (s : List Char) : Option (Json × List Char) :=
  let signAndRest : Bool × List Char :=
    match s with
    | '-' :: rest => (true, rest)
    | _ => (false, s)
  match takeDigits signAndRest.2 with
  | ([], _) => none
  | (ds, rest) =>
    if ds.length > 1 ∧ ds.head? = some '0' then none
    else
      let n : Int := Int.ofNat (digitsToNat ds 0)
      some (.jnum (if signAndRest.1 then -n else n), rest)

mutual

/-- Recursive-descent JSON value: leading whitespace, then a value. -/
def parseValue : Nat → List Char → Option (Json × List Char)
  | 0, _ => none
  | fuel + 1, s =>
    match skipWs s with
    | [] => none
    | c :: cs =>
      if c = '"' then
        (parseStringRest (cs.length + 1) cs).map (fun r => (.jstr r.1, r.2))
      else if c = '\x7b' then parseObjBody fuel cs
      else if c = '[' then parseArrBody fuel cs
      else if c = 't' then (stripPre (toL "rue") cs).map (fun r => (.jbool true, r))
      else if c = 'f' then (stripPre (toL "alse") cs).map (fun r => (.jbool false, r))
      else if c = 'n' then (stripPre (toL "ull") cs).map (fun r => (.jnull, r))
      else parseNum (c :: cs)

/-- JSON array body after the opening bracket. -/
def parseArrBody : Nat → List Char → Option (Json × List Char)
  | 0, _ => none
  | fuel + 1, s =>
    match skipWs s with
    | ']' :: r => some (.jarr [], r)
    | _ =>
      match parseElems fuel s with
      | some (es, r) => some (.jarr es, r)
      | none => none

/-- One or more comma-separated array elements, then the closing bracket. -/
def parseElems : Nat → List Char → Option (List Json × List Char)
  | 0, _ => none
  | fuel + 1, s =>
    match parseValue fuel s with
    | none => none
    | some (v, r) =>
      match skipWs r with
      | ',' :: r2 => (parseElems fuel r2).map (fun p => (v :: p.1, p.2))
      | ']' :: r2 => some ([v], r2)
      | _ => none

/-- JSON object body after the opening brace. -/
def parseObjBody : Nat → List Char → Option (Json × List Char)
  | 0, _ => none
  | fuel + 1, s =>
    match skipWs s with
    | '\x7d' :: r => some (.jobj [], r)
    | _ =>
      match parseFields fuel s with
      | some (fs, r) => some (.jobj fs, r)
      | none => none

/-- One or more comma-separated `"key": value` members, then the closing
brace. -/
def parseFields : Nat → List Char → Option (List (List Char × Json) × List Char)
  | 0, _ => none
  | fuel + 1, s =>
    match skipWs s with
    | '"' :: cs =>
      match parseStringRest (cs.length + 1) cs with
      | none => none
      | some (key, r) =>
        match skipWs r with
        | ':' :: r2 =>
          match parseValue fuel r2 with
          | none => none
          | some (v, r3) =>
            match skipWs r3 with
            | ',' :: r4 => (parseFields fuel r4).map (fun p => ((key, v) :: p.1, p.2))
            | '\x7d' :: r4 => some ([(key, v)], r4)
            | _ => none
        | _ => none
    | _ => none

end

/-- Parse a whole text as one JSON value followed only by whitespace,
mirroring `serde_json::from_str` (which tolerates surrounding
whitespace, hence also the trailing `"\n\n"` still attached to the piece
at `src/client.rs` line 335).  The fuel is an embedding artifact, ample
for the recursion depth reachable from an input of this length. -/
def parseJsonText (s : List Char) : Option Json :=
  match parseValue (3 * s.length + 3) s with
  | some (v, r) => if skipWs r = [] then some v else none
  | none => none

/-- First value bound to `key` in an object field list. -/
def lookupField (key : List Char) : List (List Char × Json) → Option Json
  | [] => none
  | f :: rest => if f.1 = key then some f.2 else lookupField key rest

/-- Modelled from the spec: deserialize a role string (spec section 3
role enumeration; `types.rs` is not part of the provided sources). -/
def roleOfString (s : List Char) : Option Role :=
  if s = toL "system" then some .system
  else if s = toL "user" then some .user
  else if s = toL "assistant" then some .assistant
  else if s = toL "function" then some .function
  else none

/-- Modelled from the spec: deserialize a `delta` object, whose shape
selects the variant — a `role` string member means a role announcement, a
`content` string member means a textual delta, and otherwise the object
is the empty close marker (spec section 6; `types.rs` and its serde
derivations are not part of the provided sources). -/
def deltaOfJson : Json → Option InboundChunkPayload
  | .jobj fields =>
    match lookupField (toL "role") fields with
    | some (.jstr r) => (roleOfString r).map .announceRoles
    | some _ => none
    | none =>
      match lookupField (toL "content") fields with
      | some (.jstr c) => some (.streamContent c)
      | some _ => none
      | none => some .close
  | _ => none

/-- Modelled from the spec: deserialize one element of `choices`, an
object with an integral `index` and a `delta` (spec section 6). -/
def choiceOfJson : Json → Option InboundChunkChoice
  | .jobj fields =>
    match lookupField (toL "index") fields with
    | some (.jnum n) =>
      if n < 0 then none
      else
        match lookupField (toL "delta") fields with
        | some d => (deltaOfJson d).map (fun dl => ⟨n.toNat, dl⟩)
        | none => none
    | _ => none
  | _ => none

/-- Deserialize every element of the `choices` array, failing if any
element fails. -/
def choicesOfJson : List Json → Option (List InboundChunkChoice)
  | [] => some []
  | j :: rest =>
    match choiceOfJson j, choicesOfJson rest with
    | some c, some cs => some (c :: cs)
    | _, _ => none

/-- Modelled from the spec: deserialize the inbound payload object, which
must carry a `choices` array (spec section 6). -/
def inboundOfJson : Json → Option InboundResponseChunk
  | .jobj fields =>
    match lookupField (toL "choices") fields with
    | some (.jarr elems) => (choicesOfJson elems).map InboundResponseChunk.mk
    | _ => none
  | _ => none

/-- Embedding of `serde_json::from_str::<InboundResponseChunk>` as used
at `src/client.rs` line 335: parse the text as JSON and deserialize it
into the payload structure. -/
def parseInboundChunk (s : List Char) : Option InboundResponseChunk :=
  (parseJsonText s).bind inboundOfJson

/-- The two ways the loop body of `process_streaming_response` can abort
by a Rust panic: a payload that fails `serde_json::from_str`
(`src/client.rs` lines 335-338), and the unguarded `choices[0]` index on
an empty `choices` array (`src/client.rs` line 339). -/
inductive PanicKind
  | invalidPayload
  | choiceOutOfBounds
deriving DecidableEq, Repr

/-- The action the loop body of `process_streaming_response` takes for
one prefix-stripped piece: push one chunk, skip it, save it as the new
carry-over and break, or abort by a panic. -/
inductive PieceAction
  | emit (c : ResponseChunk)
  | skip
  | save (rest : List Char)
  | abort (k : PanicKind)
deriving DecidableEq, Repr

/-- Embedding of the `match choice.delta` arms of
`process_streaming_response` (`src/client.rs` lines 340-356): the first
choice is turned into the chunk selected by its delta variant, carrying
the choice index as `responseIndex`. -/
def chunkFromChoice (choice : InboundChunkChoice) : ResponseChunk :=
  match choice.delta with
  | .announceRoles role => .beginResponse role choice.index
  | .streamContent c => .content c choice.index
  | .close => .closeResponse choice.index

/-- Embedding of the loop body of `process_streaming_response`
(`src/client.rs` lines 327-362) for one piece `chunk`, already stripped
of the `data: ` marker by the `filter_map`:
an empty piece is skipped (`continue`); a piece whose `"\n\n"` suffix
strips is complete — the sentinel data emits `Done` without any parsing,
any other data is given (with its terminator still attached) to
`serde_json::from_str`, panicking on failure, and otherwise the
unguarded `choices[0]` access either panics on an empty array or emits
the chunk made from the first choice; a piece whose suffix does not
strip is saved as the new carry-over (`break`). -/
def classifyChunk (chunk : List Char) : PieceAction :=
  if chunk = [] then .skip
  else
    match stripSuf eventEnd chunk with
    | none => .save chunk
    | some data =>
      if data = doneLit then .emit .done
      else
        match parseInboundChunk chunk with
        | none => .abort .invalidPayload
        | some parsed =>
          match parsed.choices with
          | [] => .abort .choiceOutOfBounds
          | choice :: _ => .emit (chunkFromChoice choice)

/-- Embedding of the `for chunk in ...` loop of
`process_streaming_response` (`src/client.rs` lines 326-363) over the
prefix-stripped pieces: returns the final carry-over buffer and the
pushed chunks in order, or the panic that aborted the loop.  The loop
ends with an empty carry-over unless a `save` breaks out of it. -/
def processChunks : List (List Char) → Except PanicKind (List Char × List ResponseChunk)
  | [] => .ok ([], [])
  | chunk :: rest =>
    match classifyChunk chunk with
    | .skip => processChunks rest
    | .emit c =>
      match processChunks rest with
      | .ok p => .ok (p.1, c :: p.2)
      | .error k => .error k
    | .save t => .ok (t, [])
    | .abort k => .error k

/-- Embedding of the per-fragment closure of `process_streaming_response`
(`src/client.rs` lines 319-368) after UTF-8 decoding succeeded: the
carry-over is prepended to the fragment, the combined text is split
inclusively on `"\n\n"`, the pieces are filtered through
`strip_prefix("data: ")`, and the loop processes them.  Returns the new
carry-over buffer and the emitted chunks, or the panic. -/
def processFragmentText (unparsed frag : List Char) :
    Except PanicKind (List Char × List ResponseChunk) :=
  processChunks ((splitInclusiveNN (unparsed ++ frag)).filterMap (stripPre dataMarker))

/-- Errors deliverable as elements of the decoded stream, and by the
non-streamed send operations.  Modelled from the spec error taxonomy
(spec section 7); `err.rs` is not part of the provided sources.  The
message strings attached by the code (`format!` output) are not modelled;
only the variant matters to the claims. -/
inductive ApiError
  | clientError
  | parsingError
  | backendError (message : List Char) (errorType : List Char)
deriving DecidableEq, Repr

/-- Embedding of the validation table of `core::str::from_utf8`
(`src/client.rs` line 311): decode a byte list as UTF-8 or fail,
rejecting overlong forms, surrogates and values above `U+10FFFF`. -/
def utf8Decode : List Nat → Option (List Char)
  | [] => some []
  | b1 :: rest =>
    if b1 ≤ 0x7F then
      (utf8Decode rest).map (fun cs => Char.ofNat b1 :: cs)
    else if 0xC2 ≤ b1 ∧ b1 ≤ 0xDF then
      match rest with
      | [] => none
      | b2 :: rest2 =>
        if 0x80 ≤ b2 ∧ b2 ≤ 0xBF then
          (utf8Decode rest2).map
            (fun cs => Char.ofNat ((b1 - 0xC0) * 0x40 + (b2 - 0x80)) :: cs)
        else none
    else if 0xE0 ≤ b1 ∧ b1 ≤ 0xEF then
      match rest with
      | b2 :: b3 :: rest3 =>
        if (if b1 = 0xE0 then 0xA0 else 0x80) ≤ b2 ∧
            b2 ≤ (if b1 = 0xED then 0x9F else 0xBF) ∧
            0x80 ≤ b3 ∧ b3 ≤ 0xBF then
          (utf8Decode rest3).map (fun cs =>
            Char.ofNat ((b1 - 0xE0) * 0x1000 + (b2 - 0x80) * 0x40 + (b3 - 0x80)) :: cs)
        else none
      | _ => none
    else if 0xF0 ≤ b1 ∧ b1 ≤ 0xF4 then
      match rest with
      | b2 :: b3 :: b4 :: rest4 =>
        if (if b1 = 0xF0 then 0x90 else 0x80) ≤ b2 ∧
            b2 ≤ (if b1 = 0xF4 then 0x8F else 0xBF) ∧
            0x80 ≤ b3 ∧ b3 ≤ 0xBF ∧ 0x80 ≤ b4 ∧ b4 ≤ 0xBF then
          (utf8Decode rest4).map (fun cs =>
            Char.ofNat ((b1 - 0xF0) * 0x40000 + (b2 - 0x80) * 0x1000 +
              (b3 - 0x80) * 0x40 + (b4 - 0x80)) :: cs)
        else none
      | _ => none
    else none

/-- Embedding of the whole per-fragment closure of
`process_streaming_response` (`src/client.rs` lines 302-368), one
network part at a time: a transport error part yields a single
`clientError` element and leaves the carry-over untouched; invalid UTF-8
bytes yield a single `parsingError` element and leave the carry-over
untouched; otherwise the decoded text is processed and every pushed
chunk is yielded wrapped in `Ok`. -/
def processFragment (unparsed : List Char) (part : Except Unit (List Nat)) :
    Except PanicKind (List Char × List (Except ApiError ResponseChunk)) :=
  match part with
  | .error _ => .ok (unparsed, [.error .clientError])
  | .ok bytes =>
    match utf8Decode bytes with
    | none => .ok (unparsed, [.error .parsingError])
    | some text =>
      match processFragmentText unparsed text with
      | .ok p => .ok (p.1, p.2.map .ok)
      | .error k => .error k

/-- Feeding successive text fragments through the decoder: the stream
combinators (`map` then `flat_map`, `src/client.rs` lines 302 and 370)
emit each fragment result in arrival order, threading the carry-over
buffer, and a panic aborts everything. -/
def decodeFragments (unparsed : List Char) :
    List (List Char) → Except PanicKind (List Char × List ResponseChunk)
  | [] => .ok (unparsed, [])
  | f :: fs =>
    match processFragmentText unparsed f with
    | .error k => .error k
    | .ok p =>
      match decodeFragments p.1 fs with
      | .error k => .error k
      | .ok q => .ok (q.1, p.2 ++ q.2)

/-- Modelled from the spec: the structured error object of a backend
error response, carrying a message and an error classification (spec
sections 3 and 7; `types.rs` is not part of the provided sources). -/
structure BackendErrInfo where
  message : List Char
  errorType : List Char
deriving DecidableEq, Repr

/-- Modelled from the spec: a finalized non-streamed response (spec
section 3, `CompletionResult`); only its identity matters to the claims,
so it is summarized as its list of completion texts. -/
structure CompletionResponse where
  messageChoices : List (List Char)
deriving DecidableEq, Repr

/-- Modelled from the spec: a decoded non-streamed server response is
either a structured error object or a completion (spec section 3;
`types.rs` is not part of the provided sources). -/
inductive ServerResponse
  | error (e : BackendErrInfo)
  | completion (c : CompletionResponse)
deriving DecidableEq, Repr

/-- Embedding of the `match response` arms shared by `send_history`
(`src/client.rs` lines 170-176), `send_message` (lines 243-249) and the
function-call variants: a structured error becomes a `BackendError`
carrying the message and type of the server error, a completion is
returned as-is. -/
def handleServerResponse (r : ServerResponse) : Except ApiError CompletionResponse :=
  match r with
  | .error e => .error (.backendError e.message e.errorType)
  | .completion c => .ok c

/-! ## Helper lemmas -/

/-- A piece with the terminator stripped off is in particular nonempty. -/
theorem ne_nil_of_stripSuf {s d : List Char} (h : stripSuf eventEnd s = some d) :
    s ≠ [] := by
  intro hs
  subst hs
  simp [stripSuf, List.isSuffixOf, eventEnd, toL] at h

/-- A complete non-sentinel piece whose payload deserializes with at
least one choice is classified as emitting the chunk made from the first
choice (shared reading of `src/client.rs` lines 331-356). -/
theorem classify_emit_of_parse {chunk data : List Char} {c : InboundChunkChoice}
    {rest : List InboundChunkChoice}
    (hsuf : stripSuf eventEnd chunk = some data) (hnd : data ≠ doneLit)
    (hp : parseInboundChunk chunk = some ⟨c :: rest⟩) :
    classifyChunk chunk = .emit (chunkFromChoice c) := by
  unfold classifyChunk
  rw [if_neg (ne_nil_of_stripSuf hsuf)]
  simp only [hsuf]
  rw [if_neg hnd]
  simp only [hp]

/-- The only `save` the loop can take stores exactly the piece it was
looking at, and only a nonempty piece can be saved. -/
theorem classify_save_eq {q t : List Char} (h : classifyChunk q = .save t) :
    t = q ∧ q ≠ [] := by
  by_cases hq : q = []
  · subst hq
    simp [classifyChunk] at h
  · refine ⟨?_, hq⟩
    unfold classifyChunk at h
    rw [if_neg hq] at h
    cases hs : stripSuf eventEnd q with
    | none =>
      simp only [hs] at h
      injection h with h
      exact h.symm
    | some data =>
      simp only [hs] at h
      by_cases hd : data = doneLit
      · rw [if_pos hd] at h
        simp at h
      · rw [if_neg hd] at h
        cases hp : parseInboundChunk q with
        | none => simp [hp] at h
        | some parsed =>
          simp only [hp] at h
          obtain ⟨cs⟩ := parsed
          cases cs with
          | nil => simp at h
          | cons c cs => simp at h

/-- Appending a final nonempty, terminator-less piece to a run of pieces
that the loop processes to completion makes that piece the new
carry-over, leaving the emitted chunks unchanged. -/
theorem processChunks_ok_append {qs : List (List Char)} {t : List Char}
    {cs : List ResponseChunk}
    (hq : processChunks qs = .ok ([], cs)) (ht : t ≠ [])
    (hs : stripSuf eventEnd t = none) :
    processChunks (qs ++ [t]) = .ok (t, cs) := by
  induction qs generalizing cs with
  | nil =>
    simp only [processChunks, Except.ok.injEq, Prod.mk.injEq, true_and] at hq
    subst hq
    simp only [List.nil_append, processChunks, classifyChunk, if_neg ht, hs]
  | cons q qs ih =>
    simp only [List.cons_append, processChunks] at hq ⊢
    cases hc : classifyChunk q with
    | skip =>
      simp only [hc] at hq ⊢
      exact ih hq
    | emit c =>
      simp only [hc] at hq ⊢
      cases hrec : processChunks qs with
      | error k => simp [hrec] at hq
      | ok p =>
        obtain ⟨u, v⟩ := p
        simp only [hrec, Except.ok.injEq, Prod.mk.injEq] at hq
        obtain ⟨hu, hcs⟩ := hq
        subst hu
        simp only [List.append_eq]
        rw [ih hrec]
        subst hcs
        rfl
    | save u =>
      simp only [hc] at hq
      simp only [Except.ok.injEq, Prod.mk.injEq] at hq
      exact absurd (hq.1 ▸ (classify_save_eq hc).1.symm) (classify_save_eq hc).2
    | abort k =>
      simp [hc] at hq

/-- Decidable equality of outcomes, for evaluating the decoder on
concrete inputs. -/
instance {ε α : Type} [DecidableEq ε] [DecidableEq α] : DecidableEq (Except ε α)
  | .error e, .error f =>
    if h : e = f then .isTrue (by rw [h]) else .isFalse (by intro hh; cases hh; exact h rfl)
  | .error _, .ok _ => .isFalse (by intro hh; cases hh)
  | .ok _, .error _ => .isFalse (by intro hh; cases hh)
  | .ok a, .ok b =>
    if h : a = b then .isTrue (by rw [h]) else .isFalse (by intro hh; cases hh; exact h rfl)

/-! ## Concrete inputs shared by the example-based claims -/

/-- The three-event stream of the spec example: a role announcement, a
`"Hi"` content delta, and the sentinel, each `data: `-prefixed and
terminated by a blank line. -/
def exampleStream : List Char :=
  toL "data: \x7b\"choices\":[\x7b\"index\":0,\"delta\":\x7b\"role\":\"assistant\"\x7d\x7d]\x7d\n\ndata: \x7b\"choices\":[\x7b\"index\":0,\"delta\":\x7b\"content\":\"Hi\"\x7d\x7d]\x7d\n\ndata: [DONE]\n\n"

/-- `exampleStream` cut at a byte offset inside the second JSON object:
the first fragment. -/
def exampleFrag1 : List Char :=
  toL "data: \x7b\"choices\":[\x7b\"index\":0,\"delta\":\x7b\"role\":\"assistant\"\x7d\x7d]\x7d\n\ndata: \x7b\"cho"

/-- `exampleStream` cut at a byte offset inside the second JSON object:
the second fragment. -/
def exampleFrag2 : List Char :=
  toL "ices\":[\x7b\"index\":0,\"delta\":\x7b\"content\":\"Hi\"\x7d\x7d]\x7d\n\ndata: [DONE]\n\n"

/-! ## Claims -/

/-- Claim C1: fragmentation-invariance fails on the code.  The two
fragments concatenate to the spec example stream; decoding the whole text
in one fragment yields the three-event sequence, but decoding the two
fragments in turn yields only two events — the content delta is lost,
because the carry-over saves the split piece with its `data: ` prefix
already stripped, so the reassembled event no longer passes the
`strip_prefix` filter on the next fragment. -/
theorem C1_fragmentation_invariance_fails :
    exampleFrag1 ++ exampleFrag2 = exampleStream ∧
    processFragmentText [] exampleStream =
      .ok ([], [.beginResponse .assistant 0, .content (toL "Hi") 0, .done]) ∧
    decodeFragments [] [exampleFrag1, exampleFrag2] =
      .ok ([], [.beginResponse .assistant 0, .done]) :=
  ⟨by decide, by decide, by decide⟩

/-- Claim C2: a complete, prefixed, terminated, non-sentinel piece whose
content is not valid JSON of the payload shape makes the decoder abort by
a panic (`unwrap_or_else(|_| panic!(..))`, `src/client.rs` lines
335-338) instead of yielding a typed decode-error element. -/
theorem C2_malformed_payload_aborts :
    processFragmentText [] (toL "data: oops\n\n") = .error .invalidPayload := by
  decide

/-- Claim C3, counterexample: the fragment `"data: x"` consists of the
single split piece `"data: x"`, which does not end with the terminator,
yet the saved carry-over is `"x"` — the piece after prefix-stripping —
and not the piece verbatim as it appeared in the combined input. -/
theorem C3_verbatim_counterexample :
    splitInclusiveNN (toL "data: x") = [toL "data: x"] ∧
    stripSuf eventEnd (toL "data: x") = none ∧
    processFragmentText [] (toL "data: x") = .ok (toL "x", []) ∧
    toL "x" ≠ toL "data: x" :=
  ⟨by decide, by decide, by decide, by decide⟩

/-- Claim C3 as amended: when the final split piece of the combined input
begins with `data: ` and its prefix-stripped remainder is nonempty and
does not end with the terminator, and the loop processes the earlier
pieces to completion, the decoder saves that prefix-stripped remainder
(not the piece verbatim) as the new carry-over, emits no event for the
final piece, and stops processing the fragment. -/
theorem C3_amended_carry_is_stripped (unparsed frag p t : List Char)
    (ps : List (List Char)) (cs : List ResponseChunk)
    (hsplit : splitInclusiveNN (unparsed ++ frag) = ps ++ [p])
    (hpre : stripPre dataMarker p = some t) (ht : t ≠ [])
    (hs : stripSuf eventEnd t = none)
    (hok : processChunks (ps.filterMap (stripPre dataMarker)) = .ok ([], cs)) :
    processFragmentText unparsed frag = .ok (t, cs) := by
  unfold processFragmentText
  rw [hsplit, List.filterMap_append]
  have hone : List.filterMap (stripPre dataMarker) [p] = [t] := by
    simp [List.filterMap_cons, hpre]
  rw [hone]
  exact processChunks_ok_append hok ht hs

/-- Claim C3 witness: a complete sentinel event followed by an incomplete
prefixed piece `"data: xy"` saves exactly `"xy"` and emits only `Done`. -/
theorem C3_amended_witness :
    processFragmentText [] (toL "data: [DONE]\n\ndata: xy") =
      .ok (toL "xy", [.done]) :=
  C3_amended_carry_is_stripped [] (toL "data: [DONE]\n\ndata: xy")
    (toL "data: xy") (toL "xy") [toL "data: [DONE]\n\n"] [.done]
    (by decide) (by decide) (by decide) (by decide) (by decide)

/-- Claim C4: a complete piece ending with the terminator whose payload
equals the literal sentinel `[DONE]` is classified as emitting exactly
one `Done` chunk; the sentinel branch (`src/client.rs` lines 331-334)
precedes the JSON parsing, so the sentinel payload is never parsed. -/
theorem C4_done_sentinel (p chunk data : List Char)
    (_hpre : stripPre dataMarker p = some chunk)
    (hsuf : stripSuf eventEnd chunk = some data)
    (hd : data = doneLit) :
    classifyChunk chunk = .emit .done := by
  unfold classifyChunk
  rw [if_neg (ne_nil_of_stripSuf hsuf)]
  simp only [hsuf]
  rw [if_pos hd]

/-- Claim C4 witness: the piece `"data: [DONE]\n\n"` emits `Done`. -/
theorem C4_done_sentinel_witness :
    classifyChunk (toL "[DONE]\n\n") = .emit .done :=
  C4_done_sentinel (toL "data: [DONE]\n\n") (toL "[DONE]\n\n") doneLit
    (by decide) (by decide) rfl

/-- Claim C5: the spec example fed as a single fragment yields exactly
the three events `BeginResponse assistant 0`, `Content "Hi" 0`, `Done`,
in that order, with an empty final carry-over. -/
theorem C5_example_three_events :
    processFragmentText [] exampleStream =
      .ok ([], [.beginResponse .assistant 0, .content (toL "Hi") 0, .done]) := by
  decide

/-- Claim C6: a fragment whose bytes are not valid UTF-8 yields a single
`ParsingError` element in the output sequence — not a panic — decodes no
event, and leaves the carry-over untouched (`src/client.rs` lines
311-318). -/
theorem C6_invalid_utf8_parsing_error (unparsed : List Char) (bs : List Nat)
    (h : utf8Decode bs = none) :
    processFragment unparsed (.ok bs) = .ok (unparsed, [.error .parsingError]) := by
  unfold processFragment
  simp only [h]

/-- Claim C6 witness: the byte `0xFF` is not valid UTF-8. -/
theorem C6_invalid_utf8_witness :
    processFragment [] (.ok [0xFF]) = .ok ([], [.error .parsingError]) :=
  C6_invalid_utf8_parsing_error [] [0xFF] (by decide)

/-- Claim C7: when no split piece of the combined input begins with the
`data: ` marker — as for a structured backend-error body delivered on the
streaming path — every piece is filtered out and the decoder yields no
event at all. -/
theorem C7_no_marker_yields_nothing (unparsed frag : List Char)
    (h : ∀ p ∈ splitInclusiveNN (unparsed ++ frag), stripPre dataMarker p = none) :
    processFragmentText unparsed frag = .ok ([], []) := by
  unfold processFragmentText
  rw [List.filterMap_eq_nil_iff.mpr h]
  rfl

/-- Claim C7 witness: a backend-error JSON body contains no `data: `
piece and decodes to the empty event sequence. -/
theorem C7_no_marker_witness :
    processFragmentText []
      (toL "\x7b\"error\":\x7b\"message\":\"overloaded\",\"type\":\"server_error\"\x7d\x7d") =
      .ok ([], []) :=
  C7_no_marker_yields_nothing [] _ (by decide)

/-- Claim C8: a non-streamed server response that decodes to a structured
error object is returned as a `BackendError` carrying exactly the
message and the error classification of the server error, never as a
completion (`src/client.rs` lines 170-176 and 243-249). -/
theorem C8_backend_error_passthrough (msg ty : List Char) :
    handleServerResponse (.error ⟨msg, ty⟩) = .error (.backendError msg ty) :=
  rfl

/-- Claim C9: decoding a complete non-sentinel piece reads the first
element of `choices` without a bounds guard (`src/client.rs` line 339):
whenever the payload parses with a nonempty `choices` array the piece is
classified as an emission — the abort branch is unreachable — and on the
concrete payload with an empty `choices` array the classification is the
out-of-bounds abort, so decoding such pieces is not total. -/
theorem C9_first_choice_unguarded :
    (∀ (chunk data : List Char) (c : InboundChunkChoice)
        (rest : List InboundChunkChoice),
      stripSuf eventEnd chunk = some data → data ≠ doneLit →
      parseInboundChunk chunk = some ⟨c :: rest⟩ →
      ∃ e, classifyChunk chunk = .emit e) ∧
    classifyChunk (toL "\x7b\"choices\":[]\x7d\n\n") = .abort .choiceOutOfBounds := by
  constructor
  · intro chunk data c rest hsuf hnd hp
    exact ⟨chunkFromChoice c, classify_emit_of_parse hsuf hnd hp⟩
  · decide

/-- Claim C9 witness: a parsed payload with one close-delta choice emits,
and the empty-`choices` payload aborts. -/
theorem C9_first_choice_witness :
    (∃ e, classifyChunk (toL "\x7b\"choices\":[\x7b\"index\":0,\"delta\":\x7b\x7d\x7d]\x7d\n\n") =
      .emit e) ∧
    classifyChunk (toL "\x7b\"choices\":[]\x7d\n\n") = .abort .choiceOutOfBounds :=
  ⟨C9_first_choice_unguarded.1
      (toL "\x7b\"choices\":[\x7b\"index\":0,\"delta\":\x7b\x7d\x7d]\x7d\n\n")
      (toL "\x7b\"choices\":[\x7b\"index\":0,\"delta\":\x7b\x7d\x7d]\x7d")
      ⟨0, .close⟩ [] (by decide) (by decide) (by decide),
    C9_first_choice_unguarded.2⟩

/-- Claim C10: a complete non-sentinel piece whose payload parses with a
nonempty `choices` array is classified as emitting exactly one chunk,
derived solely from the first choice — its `index` becomes the
`responseIndex` and its delta variant selects `BeginResponse`, `Content`
or `CloseResponse` — independently of any further choices `rest`. -/
theorem C10_first_choice_mapping (chunk data : List Char)
    (c : InboundChunkChoice) (rest : List InboundChunkChoice)
    (hsuf : stripSuf eventEnd chunk = some data) (hnd : data ≠ doneLit)
    (hp : parseInboundChunk chunk = some ⟨c :: rest⟩) :
    classifyChunk chunk = .emit (chunkFromChoice c) ∧
    chunkFromChoice c =
      (match c.delta with
        | .announceRoles role => .beginResponse role c.index
        | .streamContent s => .content s c.index
        | .close => .closeResponse c.index) :=
  ⟨classify_emit_of_parse hsuf hnd hp, rfl⟩

/-- Claim C10 witness: a payload with two choices — a content delta at
index 0 and a second close choice at index 1 — emits only the content
chunk of the first choice. -/
theorem C10_first_choice_mapping_witness :
    classifyChunk
      (toL "\x7b\"choices\":[\x7b\"index\":0,\"delta\":\x7b\"content\":\"Hi\"\x7d\x7d,\x7b\"index\":1,\"delta\":\x7b\x7d\x7d]\x7d\n\n") =
      .emit (.content (toL "Hi") 0) :=
  (C10_first_choice_mapping
    (toL "\x7b\"choices\":[\x7b\"index\":0,\"delta\":\x7b\"content\":\"Hi\"\x7d\x7d,\x7b\"index\":1,\"delta\":\x7b\x7d\x7d]\x7d\n\n")
    (toL "\x7b\"choices\":[\x7b\"index\":0,\"delta\":\x7b\"content\":\"Hi\"\x7d\x7d,\x7b\"index\":1,\"delta\":\x7b\x7d\x7d]\x7d")
    ⟨0, .streamContent (toL "Hi")⟩ [⟨1, .close⟩]
    (by decide) (by decide) (by decide)).1

end ChatGPTRs
